import Mathlib

/-!
Verification of the MoonGuard vehicle-verification pipeline.

A shallow embedding of the pipeline's pure logic: the filename decoder
(`parse_filename` of file_watcher.py), plate validation (`validate_lpr` of
gov_api.py), the prioritized registry resolver (`search_all_databases` of
gov_api.py over the configuration of config.py), the vision-adapter
response handling (`detect_yellow_plate` and `analyze_vehicle_image` of
ai_analyzer.py), the orchestrator (`process_new_file` of main.py) and the
event store's pure query logic (database.py).

External effects are modelled explicitly: collaborator responses, registry
lookups and pre-screen results enter as inputs (`Env`); the side effects of
one run (the persisted event, file deletion or relocation, which external
services were invoked) come out as data (`ProcessResult`).
-/

set_option maxHeartbeats 1000000

namespace MoonGuard

/-! ### Python string primitives -/

/-- Python `str.split(sep)` for a single-character separator, over a char
list: `"" ↦ [""]`, separators at the ends produce empty components. -/
def splitOnChar (c : Char) : List Char → List (List Char)
  | [] => [[]]
  | x :: xs =>
    match splitOnChar c xs with
    | [] => [[]]
    | r :: rs => if x = c then [] :: r :: rs else (x :: r) :: rs

/-- Python `s.split(c)` for a one-character separator. -/
def pySplit (s : String) (c : Char) : List String :=
  (splitOnChar c s.data).map String.mk

/-- Python slice `s[a:b]` for nonnegative bounds. -/
def strSlice (s : String) (a b : Nat) : String :=
  String.mk ((s.data.take b).drop a)

/-- Python `str.isdigit` (ASCII-digit model): nonempty and all digits. -/
def pyIsDigit (s : String) : Bool :=
  !s.data.isEmpty && s.data.all Char.isDigit

/-- Python `int(s)` for an all-digit string. -/
def digitsToNat (s : String) : Nat :=
  s.data.foldl (fun a c => a * 10 + (c.toNat - 48)) 0

/-- Python `s[-2:]` (used only on strings of length ≥ 2). -/
def lastTwo (s : String) : String :=
  String.mk (s.data.drop (s.data.length - 2))

/-- Index of the last occurrence of `c` in `l`, as Python `rfind` (None when
absent). -/
def rFindIdx (l : List Char) (c : Char) : Option Nat :=
  (l.reverse.findIdx? (fun x => x = c)).map (fun i => l.length - 1 - i)

/-- `pathlib.Path(name).stem`: the name with its last extension removed; the
dot must be neither the first nor the last character. -/
def pathStem (name : String) : String :=
  match rFindIdx name.data '.' with
  | some i => if 0 < i ∧ i < name.data.length - 1 then String.mk (name.data.take i) else name
  | none => name

/-- Python `str.find(c)`: first index, `-1` when absent. -/
def pyFind (s : String) (c : Char) : Int :=
  match s.data.findIdx? (fun x => x = c) with
  | some i => (i : Int)
  | none => -1

/-- Python `str.rfind(c)`: last index, `-1` when absent. -/
def pyRFind (s : String) (c : Char) : Int :=
  match rFindIdx s.data c with
  | some i => (i : Int)
  | none => -1

/-- Python truthiness of an `Optional[str]`: `None` and `""` are falsy. -/
def optStrTruthy : Option String → Bool
  | none => false
  | some s => !s.data.isEmpty

/-- Python f-string interpolation of an `Optional[str]` (`None` prints as
the text `None`). -/
def pyFormatOpt : Option String → String
  | none => "None"
  | some s => s

/-- Python `a or b` over an optional string with a default: falls through on
`None` and on the empty string. -/
def pyOrStr (v : Option String) (d : String) : String :=
  match v with
  | some s => if s.data.isEmpty then d else s
  | none => d

def emptyString : String := ""
def usString : String := "_"
def colonString : String := ":"
def slashString : String := "/"

/-! ### Data model (models.py) -/

inductive EventStatus
  | VERIFIED
  | ALERT
  | UNKNOWN
  | PROCESSING
  | ERROR
  | NO_LICENSE
  | OFF_ROAD
  | FAKE_PLATE
deriving DecidableEq, Repr

/-- The `.value` of the Python `EventStatus(str, Enum)`. -/
def statusValue : EventStatus → String
  | .VERIFIED => "VERIFIED"
  | .ALERT => "ALERT"
  | .UNKNOWN => "UNKNOWN"
  | .PROCESSING => "PROCESSING"
  | .ERROR => "ERROR"
  | .NO_LICENSE => "NO_LICENSE"
  | .OFF_ROAD => "OFF_ROAD"
  | .FAKE_PLATE => "FAKE_PLATE"

structure GovData where
  found : Bool := false
  manufacturer : Option String := none
  model : Option String := none
  color : Option String := none
  year : Option String := none
  error : Option String := none
  source_db : Option String := none
  alert_type : Option String := none
  alert_message : Option String := none
deriving DecidableEq, Repr

structure AIAnalysis where
  scene_description : String := ""
  detected_manufacturer : Option String := none
  target_found : Bool := false
  confidence : Int := 0
  best_match_details : Option String := none
  reasoning : Option String := none
deriving DecidableEq, Repr

/-- A verification event as persisted (models.py `VehicleEvent`); the store
fields `id`/`timestamp` are assigned outside the modelled logic. -/
structure VehicleEvent where
  display_time : String := ""
  display_date : String := ""
  location_id : String := ""
  lpr : String := ""
  gov_data : GovData := {}
  ai_analysis : AIAnalysis := {}
  status : EventStatus := EventStatus.PROCESSING
  image_filename : String := ""
deriving DecidableEq, Repr

/-! ### Configuration (config.py) -/

def LPR_VALID_LENGTHS : List Nat := [7, 8]

def AI_CONFIDENCE_THRESHOLD : Int := 75

def ALERT_NO_LICENSE : String := "NO_LICENSE"
def ALERT_OFF_ROAD : String := "OFF_ROAD"
def ALERT_FAKE_PLATE : String := "FAKE_PLATE"

def MSG_NO_LICENSE : String := "רכב ללא טסט/רשיון מעל שנה"
def MSG_OFF_ROAD : String := "רכב מורד מהכביש"
def MSG_FAKE_PLATE : String := "לוחית מזויפת - לא נמצא באף מאגר ממשלתי"

structure DbInfo where
  resource_id : String
  name : String
  alert_type : Option String := none
  alert_message : Option String := none
deriving DecidableEq, Repr

/-- `Config.GOV_DATABASES`, in the dictionary's insertion order. -/
def GOV_DATABASES : List (String × DbInfo) := [
  ("main", { resource_id := "053cea08-09bc-40ec-8f7a-156f0677aff3",
             name := "מאגר ראשי" }),
  ("inactive", { resource_id := "f6efe89a-fb3d-43a4-bb61-9bf12a9b9099",
                 name := "רכבים לא פעילים",
                 alert_type := some ALERT_NO_LICENSE,
                 alert_message := some MSG_NO_LICENSE }),
  ("off_road_1", { resource_id := "851ecab1-0622-4dbe-a6c7-f950cf82abf9",
                   name := "מורדים מכביש #1",
                   alert_type := some ALERT_OFF_ROAD,
                   alert_message := some MSG_OFF_ROAD }),
  ("off_road_2", { resource_id := "4e6b9724-4c1e-43f0-909a-154d4cc4e046",
                   name := "מורדים מכביש #2",
                   alert_type := some ALERT_OFF_ROAD,
                   alert_message := some MSG_OFF_ROAD }),
  ("off_road_3", { resource_id := "ec8cbc34-72e1-4b69-9c48-22821ba0bd6c",
                   name := "מורדים מכביש #3",
                   alert_type := some ALERT_OFF_ROAD,
                   alert_message := some MSG_OFF_ROAD }),
  ("public", { resource_id := "cf29862d-ca25-4691-84f6-1be60dcb4a1e",
               name := "רכבים ציבוריים" }),
  ("motorcycle", { resource_id := "bf9df4e2-d90d-4c0a-a400-19e15af8e95f",
                   name := "דו גלגליים" }),
  ("heavy", { resource_id := "cd3acc5c-03c3-4c89-9c54-d40f93c0d790",
              name := "רכבים כבדים (מעל 3.5 טון)" }),
  ("heavy_2", { resource_id := "03adc637-b6fe-402b-9937-7c3d3afc9140",
                name := "רכבים כבדים #2" }),
  ("private_extended", { resource_id := "0866573c-40cd-4ca8-91d2-9dd2d7a492e5",
                         name := "פרטיים ומסחריים - מורחב" })
]

/-- `Config.GOV_SEARCH_ORDER`: the fixed priority order of the registries. -/
def GOV_SEARCH_ORDER : List String :=
  ["main", "private_extended", "inactive",
   "off_road_1", "off_road_2", "off_road_3",
   "public", "motorcycle", "heavy", "heavy_2"]

/-- Python `Config.GOV_DATABASES.get(key)`. -/
def govDatabasesGet (key : String) : Option DbInfo :=
  (GOV_DATABASES.find? (fun p => p.1 = key)).map (fun p => p.2)

/-! ### Identifier decoder (file_watcher.py `parse_filename`) -/

def invalidFormatMsg : String := "פורמט שם קובץ לא תקין"
def invalidTimeMsg : String := "פורמט זמן לא תקין"

structure ParsedMeta where
  valid : Bool
  location_id : String := ""
  raw_date : String := ""
  display_time : String := ""
  display_date : String := ""
  lpr : String := ""
  error : Option String := none
deriving DecidableEq, Repr

/-- `parse_filename` of file_watcher.py: split the stem on underscores,
require ≥ 4 components and a ≥ 14-character timestamp, and reformat date
and time for display. Pure; the Python `except` branch is unreachable since
no operation here raises. -/
def parse_filename (filename : String) : ParsedMeta :=
  let parts := pySplit (pathStem filename) '_'
  if parts.length < 4 then
    { valid := false, error := some invalidFormatMsg }
  else
    let location_id := parts.getD 0 emptyString ++ usString ++ parts.getD 1 emptyString
    let timestamp_full := parts.getD 2 emptyString
    if timestamp_full.length < 14 then
      { valid := false, error := some invalidTimeMsg }
    else
      let date_str := strSlice timestamp_full 0 8
      let time_str := strSlice timestamp_full 8 14
      let formatted_time :=
        strSlice time_str 0 2 ++ colonString ++ strSlice time_str 2 4 ++
          colonString ++ strSlice time_str 4 time_str.length
      let formatted_date :=
        strSlice date_str 6 date_str.length ++ slashString ++
          strSlice date_str 4 6 ++ slashString ++ strSlice date_str 0 4
      { valid := true, location_id := location_id, raw_date := date_str,
        display_time := formatted_time, display_date := formatted_date,
        lpr := parts.getD 3 emptyString }

/-! ### Plate validation (gov_api.py `validate_lpr`) -/

def validate_lpr (lpr : String) : Bool :=
  if lpr.data.isEmpty then false
  else if !pyIsDigit lpr then false
  else if !LPR_VALID_LENGTHS.contains lpr.length then false
  else true

/-! ### Registry resolver (gov_api.py) -/

def UNKNOWN_SENTINEL : String := "לא ידוע"

def fldTozeretNm : String := "tozeret_nm"
def fldTozeretCd : String := "tozeret_cd"
def fldTozeret : String := "tozeret"
def fldKinuyMishari : String := "kinuy_mishari"
def fldDegemNm : String := "degem_nm"
def fldDegemCd : String := "degem_cd"
def fldTzevaRechev : String := "tzeva_rechev"
def fldTzevaCd : String := "tzeva_cd"
def fldShnatYitzur : String := "shnat_yitzur"
def fldShnatYitsur : String := "shnat_yitsur"

structure VehicleData where
  manufacturer : String
  model : String
  color : String
  year : String
deriving DecidableEq, Repr

/-- `extract_vehicle_data`: per-attribute fallback chains over a registry
record (a partial map from field name to value), defaulting to the unknown
sentinel. -/
def extract_vehicle_data (record : String → Option String) : VehicleData :=
  { manufacturer :=
      pyOrStr (record fldTozeretNm)
        (pyOrStr (record fldTozeretCd) (pyOrStr (record fldTozeret) UNKNOWN_SENTINEL)),
    model :=
      pyOrStr (record fldKinuyMishari)
        (pyOrStr (record fldDegemNm) (pyOrStr (record fldDegemCd) UNKNOWN_SENTINEL)),
    color :=
      pyOrStr (record fldTzevaRechev) (pyOrStr (record fldTzevaCd) UNKNOWN_SENTINEL),
    year :=
      pyOrStr (record fldShnatYitzur) (pyOrStr (record fldShnatYitsur) UNKNOWN_SENTINEL) }

/-- The `GovData` built for a match in registry `info` (gov_api.py lines
136–164). -/
def foundGovData (info : DbInfo) (record : String → Option String) : GovData :=
  { found := true,
    manufacturer := some (extract_vehicle_data record).manufacturer,
    model := some (extract_vehicle_data record).model,
    color := some (extract_vehicle_data record).color,
    year := some (extract_vehicle_data record).year,
    source_db := some info.name,
    alert_type := info.alert_type,
    alert_message := info.alert_message }

/-- The `GovData` returned when no registry matched (gov_api.py lines
166–173). -/
def notFoundGovData : GovData :=
  { found := false, alert_type := some ALERT_FAKE_PLATE,
    alert_message := some MSG_FAKE_PLATE }

/-- The loop body of `search_all_databases`: walk the ordered keys, skip
keys absent from `GOV_DATABASES`, and return on the first registry whose
lookup yields a record. `lookup` maps a `resource_id` to the record the
single-registry query produced, `none` standing for "no records" and for
any per-registry transport error (both are treated as no-match by
`search_single_database`). The second component instruments which resource
keys were actually queried, in order. -/
def searchDatabasesFrom (lookup : String → Option (String → Option String)) :
    List String → GovData × List String
  | [] => (notFoundGovData, [])
  | key :: rest =>
    match govDatabasesGet key with
    | none => searchDatabasesFrom lookup rest
    | some info =>
      match lookup info.resource_id with
      | some record => (foundGovData info record, [key])
      | none =>
        let r := searchDatabasesFrom lookup rest
        (r.1, key :: r.2)

/-- `search_all_databases` over the configured order. -/
def search_all_databases (lookup : String → Option (String → Option String)) :
    GovData × List String :=
  searchDatabasesFrom lookup GOV_SEARCH_ORDER

/-! ### Vision adapter response handling (ai_analyzer.py) -/

def lbraceChar : Char := Char.ofNat 123
def rbraceChar : Char := Char.ofNat 125

/-- The fuzzy JSON extraction shared by the vision operations: the substring
from the first opening brace to the last closing brace, as in
`content.find`/`content.rfind` with the bounds check of ai_analyzer.py. -/
def extractJson (content : String) : Option String :=
  let json_start := pyFind content lbraceChar
  let json_end := pyRFind content rbraceChar + 1
  if json_start ≥ 0 ∧ json_start < json_end then
    some (strSlice content json_start.toNat json_end.toNat)
  else none

/-- A collaborator interaction: `err` is a raised transport/service
exception, `ok` the text content of the model's reply. -/
inductive CollabResponse
  | err (msg : String)
  | ok (content : String)
deriving DecidableEq, Repr

/-- The structured payload `json.loads` + `.get` defaults produce for the
yellow-plate check (`yellow_plate_found` defaulting to false, `confidence`
to 0). -/
structure YellowPayload where
  yellow_plate_found : Bool := false
  confidence : Int := 0
deriving DecidableEq, Repr

/-- `detect_yellow_plate` of ai_analyzer.py, from the response on: `decode`
stands for `json.loads` (returning `none` when it raises). A transport
error, an unextractable payload and an undecodable payload all yield
`false`; otherwise the check requires the found flag and confidence ≥ 50. -/
def detect_yellow_plate (decode : String → Option YellowPayload) :
    CollabResponse → Bool
  | .err _ => false
  | .ok content =>
    match extractJson content with
    | none => false
    | some js =>
      match decode js with
      | none => false
      | some r => r.yellow_plate_found && decide (50 ≤ r.confidence)

/-- The structured payload `json.loads` + `.get` defaults produce for full
verification. -/
structure AIPayload where
  scene_description : String := ""
  detected_manufacturer : Option String := none
  target_found : Bool := false
  confidence : Int := 0
  best_match_details : Option String := none
  reasoning : Option String := none
deriving DecidableEq, Repr

def MSG_PARSE_FAIL : String := "שגיאה בפרסור התשובה"
def ERR_PREFIX : String := "שגיאה: "
def MSG_GOV_FETCH_FAIL : String := "שגיאה בשליפת נתונים"

/-- The degraded verdict `analyze_vehicle_image` returns when no structured
payload could be parsed out of the reply (ai_analyzer.py lines 176–183). -/
def parseFailVerdict (content : String) : AIAnalysis :=
  { scene_description := strSlice content 0 200, target_found := false,
    confidence := 0, reasoning := some MSG_PARSE_FAIL }

/-- The response-handling tail of `analyze_vehicle_image` (from the reply
on): extract a JSON payload, decode it, and degrade instead of raising on
either failure; a raised exception degrades to a zero-confidence error
verdict. -/
def analyzeResponse (decode : String → Option AIPayload) :
    CollabResponse → AIAnalysis
  | .err msg =>
    { scene_description := ERR_PREFIX ++ msg, target_found := false, confidence := 0 }
  | .ok content =>
    match extractJson content with
    | none => parseFailVerdict content
    | some js =>
      match decode js with
      | none => parseFailVerdict content
      | some r =>
        { scene_description := r.scene_description,
          detected_manufacturer := r.detected_manufacturer,
          target_found := r.target_found,
          confidence := r.confidence,
          best_match_details := r.best_match_details,
          reasoning := r.reasoning }

/-! ### Pipeline orchestrator (main.py `process_new_file`) -/

structure PreScreenResult where
  skip : Bool
  reason : String
deriving DecidableEq, Repr

/-- The environment of one pipeline run: what the external collaborators
would answer. `govError` is `some msg` when `get_vehicle_data`'s outer
exception handler fires (timeout/HTTP/other before any per-registry
handling), `none` when `search_all_databases` runs against `lookup`.
`yellowPlate` and `analyze` are the values `detect_yellow_plate` and
`analyze_vehicle_image` would return for this image. -/
structure Env where
  preScreen : PreScreenResult
  govError : Option String
  lookup : String → Option (String → Option String)
  yellowPlate : Bool
  analyze : AIAnalysis

/-- The observable outcome of one `process_new_file` run: the persisted
event if any (`save_event` is called exactly on `event = some _`),
the disposition of the source file, and which external services were
invoked. -/
structure ProcessResult where
  event : Option VehicleEvent := none
  fileDeleted : Bool := false
  fileMoved : Bool := false
  calledPreScreen : Bool := false
  calledGov : Bool := false
  queriedRegistries : List String := []
  calledYellow : Bool := false
  calledAnalyze : Bool := false
deriving DecidableEq, Repr

/-- Persist the event and relocate the source file to the processed folder
(main.py lines 237–263). -/
def finishRun (base : ProcessResult) (e : VehicleEvent) : ProcessResult :=
  { base with event := some e, fileMoved := true }

def FAKE_SCENE : String := "🔴 לוחית מזויפת! הרכב לא קיים באף מאגר ממשלתי"
def WARN_PREFIX : String := "⚠️ "

/-- The synthetic verdict attached to a FAKE_PLATE event (main.py lines
185–189): `target_found = false`, `confidence = 0`. -/
def syntheticFakePlateVerdict : AIAnalysis :=
  { scene_description := FAKE_SCENE, target_found := false, confidence := 0 }

/-- The part of `process_new_file` from the registry fetch on (main.py
lines 150–263): build the initial PROCESSING event, fetch `GovData`, branch
on the alert kind (the yellow-plate gate on the FAKE_PLATE path), the
not-found fallback, or full vision verification against the threshold, then
persist and relocate. -/
def govStage (meta : ParsedMeta) (filename : String) (env : Env) : ProcessResult :=
  let event0 : VehicleEvent :=
    { display_time := meta.display_time, display_date := meta.display_date,
      location_id := meta.location_id, lpr := meta.lpr,
      image_filename := filename, status := EventStatus.PROCESSING }
  let gq : GovData × List String :=
    match env.govError with
    | some e => ({ found := false, error := some e }, [])
    | none => search_all_databases env.lookup
  let gov_data := gq.1
  let base : ProcessResult :=
    { calledPreScreen := true, calledGov := true, queriedRegistries := gq.2 }
  if optStrTruthy gov_data.alert_type then
    if gov_data.alert_type = some ALERT_FAKE_PLATE then
      let base' := { base with calledYellow := true }
      if env.yellowPlate then
        finishRun base'
          { event0 with
            gov_data := gov_data
            status := EventStatus.FAKE_PLATE
            ai_analysis := syntheticFakePlateVerdict }
      else
        { base' with fileDeleted := true }
    else if gov_data.alert_type = some ALERT_NO_LICENSE then
      finishRun base
        { event0 with
          gov_data := gov_data
          status := EventStatus.NO_LICENSE
          ai_analysis :=
            { scene_description := WARN_PREFIX ++ pyFormatOpt gov_data.alert_message
              target_found := true
              confidence := 100 } }
    else if gov_data.alert_type = some ALERT_OFF_ROAD then
      finishRun base
        { event0 with
          gov_data := gov_data
          status := EventStatus.OFF_ROAD
          ai_analysis :=
            { scene_description := WARN_PREFIX ++ pyFormatOpt gov_data.alert_message
              target_found := true
              confidence := 100 } }
    else
      finishRun base { event0 with gov_data := gov_data }
  else if gov_data.found = false then
    finishRun base
      { event0 with
        gov_data := gov_data
        status := EventStatus.UNKNOWN
        ai_analysis :=
          { scene_description := MSG_GOV_FETCH_FAIL
            target_found := false
            confidence := 0 } }
  else
    finishRun { base with calledAnalyze := true }
      { event0 with
        gov_data := gov_data
        ai_analysis := env.analyze
        status :=
          if env.analyze.target_found = true ∧
              AI_CONFIDENCE_THRESHOLD ≤ env.analyze.confidence
          then EventStatus.VERIFIED else EventStatus.ALERT }

/-- `process_new_file` of main.py as one run over its environment: decode
the filename (no deletion on a parse failure — the code merely returns),
the digit filter, plate validation, the 7-digit suffix-exclusion filter,
the scene pre-screen, then the registry/vision/classification stage. -/
def process_new_file (filename : String) (env : Env) : ProcessResult :=
  let meta := parse_filename filename
  if meta.valid = false then {}
  else if pyIsDigit meta.lpr = false then { fileDeleted := true }
  else if validate_lpr meta.lpr = false then { fileDeleted := true }
  else if meta.lpr.length = 7 ∧ 90 ≤ digitsToNat (lastTwo meta.lpr) ∧
      digitsToNat (lastTwo meta.lpr) ≤ 99 then
    { fileDeleted := true }
  else if env.preScreen.skip then { fileDeleted := true, calledPreScreen := true }
  else govStage meta filename env

/-! ### Event store queries (database.py) -/

/-- The statuses `delete_non_alert_events` keeps (database.py line 262). -/
def alert_statuses : List String := ["ALERT", "FAKE_PLATE", "NO_LICENSE", "OFF_ROAD"]

/-- `delete_non_alert_events`: `DELETE FROM events WHERE status NOT IN
alert_statuses`; returns the surviving rows and the deleted count. -/
def delete_non_alert_events (rows : List VehicleEvent) : List VehicleEvent × Nat :=
  (rows.filter (fun e => alert_statuses.contains (statusValue e.status)),
   (rows.filter (fun e => !alert_statuses.contains (statusValue e.status))).length)

/-- `get_events` over rows already in timestamp-descending order: optional
status filter (SQL text equality on the status column), then OFFSET and
LIMIT. -/
def get_events (rows : List VehicleEvent) (limit offset : Nat)
    (status : Option EventStatus) : List VehicleEvent :=
  let filtered : List VehicleEvent :=
    match status with
    | some s => rows.filter (fun e => statusValue e.status == statusValue s)
    | none => rows
  (filtered.drop offset).take limit

/-- `get_alerts`: `get_events` filtered to status ALERT. -/
def get_alerts (rows : List VehicleEvent) (limit : Nat) : List VehicleEvent :=
  get_events rows limit 0 (some EventStatus.ALERT)

/-! ### Slice algebra -/

theorem length_mk (l : List Char) : (String.mk l).length = l.length := rfl

theorem length_data (s : String) : s.length = s.data.length := rfl

theorem strSlice_length (s : String) (a b : Nat) :
    (strSlice s a b).length = min b s.length - a := by
  show ((s.data.take b).drop a).length = min b s.length - a
  rw [List.length_drop, List.length_take, length_data]

theorem strSlice_strSlice (s : String) (a b c d : Nat) :
    strSlice (strSlice s a b) c d = strSlice s (a + c) (min (a + d) b) := by
  unfold strSlice
  congr 1
  simp only [List.drop_take, List.take_take, List.drop_drop]
  congr 1
  omega

theorem parse_filename_valid_iff (filename : String) :
    (parse_filename filename).valid = true ↔
      ¬ ((pySplit (pathStem filename) '_').length < 4 ∨
        ((pySplit (pathStem filename) '_').getD 2 emptyString).length < 14) := by
  simp only [parse_filename]
  by_cases h1 : (pySplit (pathStem filename) '_').length < 4
  · rw [if_pos h1]
    constructor
    · intro hv; exact Bool.noConfusion hv
    · intro hn; exact absurd (Or.inl h1) hn
  · rw [if_neg h1]
    by_cases h2 : ((pySplit (pathStem filename) '_').getD 2 emptyString).length < 14
    · rw [if_pos h2]
      constructor
      · intro hv; exact Bool.noConfusion hv
      · intro hn; exact absurd (Or.inr h2) hn
    · rw [if_neg h2]
      exact iff_of_true rfl (fun h => h.elim h1 h2)

/-- C7: for every filename, `parse_filename` splits the stem on the fixed
underscore delimiter and fails (`valid = false`) exactly when fewer than 4
components exist or the timestamp component is shorter than 14 characters;
otherwise it returns the first two components joined as `location_id`,
characters 0-8 of the timestamp reformatted as a `DD/MM/YYYY` date,
characters 8-14 reformatted as an `HH:MM:SS` time, and the fourth component
verbatim as the plate. The embedding is a pure function, so identical
filenames give identical results and there are no side effects. -/
theorem C7_decoder (filename : String) :
    ((parse_filename filename).valid = false ↔
      (pySplit (pathStem filename) '_').length < 4 ∨
        ((pySplit (pathStem filename) '_').getD 2 emptyString).length < 14) ∧
    ((parse_filename filename).valid = true →
      (parse_filename filename).location_id =
          (pySplit (pathStem filename) '_').getD 0 emptyString ++ usString ++
            (pySplit (pathStem filename) '_').getD 1 emptyString ∧
      (parse_filename filename).display_date =
          strSlice ((pySplit (pathStem filename) '_').getD 2 emptyString) 6 8 ++
            slashString ++
            strSlice ((pySplit (pathStem filename) '_').getD 2 emptyString) 4 6 ++
            slashString ++
            strSlice ((pySplit (pathStem filename) '_').getD 2 emptyString) 0 4 ∧
      (parse_filename filename).display_time =
          strSlice ((pySplit (pathStem filename) '_').getD 2 emptyString) 8 10 ++
            colonString ++
            strSlice ((pySplit (pathStem filename) '_').getD 2 emptyString) 10 12 ++
            colonString ++
            strSlice ((pySplit (pathStem filename) '_').getD 2 emptyString) 12 14 ∧
      (parse_filename filename).lpr =
          (pySplit (pathStem filename) '_').getD 3 emptyString) := by
  constructor
  · constructor
    · intro hf
      by_contra hn
      have hv := (parse_filename_valid_iff filename).mpr hn
      rw [hf] at hv
      exact Bool.noConfusion hv
    · intro hd
      cases hv : (parse_filename filename).valid
      · rfl
      · exact absurd hd ((parse_filename_valid_iff filename).mp hv)
  · intro hv
    have hn := (parse_filename_valid_iff filename).mp hv
    push_neg at hn
    obtain ⟨h1, h2⟩ := hn
    have hts : 14 ≤ ((pySplit (pathStem filename) '_').getD 2 emptyString).length := by omega
    have hd8 : (strSlice ((pySplit (pathStem filename) '_').getD 2 emptyString) 0 8).length = 8 := by
      rw [strSlice_length]; omega
    have ht6 : (strSlice ((pySplit (pathStem filename) '_').getD 2 emptyString) 8 14).length = 6 := by
      rw [strSlice_length]; omega
    have h1' : ¬ (pySplit (pathStem filename) '_').length < 4 := by omega
    have h2' : ¬ ((pySplit (pathStem filename) '_').getD 2 emptyString).length < 14 := by omega
    refine ⟨?_, ?_, ?_, ?_⟩
    · simp only [parse_filename]; rw [if_neg h1', if_neg h2']
    · simp only [parse_filename]; rw [if_neg h1', if_neg h2']
      show strSlice _ 6 _ ++ _ ++ _ ++ _ ++ _ = _
      rw [hd8, strSlice_strSlice, strSlice_strSlice, strSlice_strSlice]
      norm_num
    · simp only [parse_filename]; rw [if_neg h1', if_neg h2']
      show strSlice _ 0 _ ++ _ ++ _ ++ _ ++ _ = _
      rw [ht6, strSlice_strSlice, strSlice_strSlice, strSlice_strSlice]
      norm_num
    · simp only [parse_filename]; rw [if_neg h1', if_neg h2']

/-! ### Resolver lemmas -/

/-- Every registry of the configuration carries alert kind none,
NO_LICENSE or OFF_ROAD. -/
theorem govDatabasesGet_alert_cases (key : String) (info : DbInfo)
    (h : govDatabasesGet key = some info) :
    info.alert_type = none ∨ info.alert_type = some ALERT_NO_LICENSE ∨
      info.alert_type = some ALERT_OFF_ROAD := by
  unfold govDatabasesGet at h
  cases hf : GOV_DATABASES.find? (fun p => p.1 = key) with
  | none => rw [hf] at h; exact Option.noConfusion h
  | some p =>
    rw [hf] at h
    have hp : p.2 = info := Option.some.inj h
    have hmem : p ∈ GOV_DATABASES := List.mem_of_find?_eq_some hf
    rw [← hp]
    simp only [GOV_DATABASES, List.mem_cons, List.not_mem_nil, or_false] at hmem
    rcases hmem with h' | h' | h' | h' | h' | h' | h' | h' | h' | h' <;> subst h' <;> simp

/-- The resolver's result always carries alert kind none, NO_LICENSE,
OFF_ROAD or FAKE_PLATE. -/
theorem searchFrom_alert_cases (lookup : String → Option (String → Option String))
    (l : List String) :
    (searchDatabasesFrom lookup l).1.alert_type = none ∨
    (searchDatabasesFrom lookup l).1.alert_type = some ALERT_NO_LICENSE ∨
    (searchDatabasesFrom lookup l).1.alert_type = some ALERT_OFF_ROAD ∨
    (searchDatabasesFrom lookup l).1.alert_type = some ALERT_FAKE_PLATE := by
  induction l with
  | nil => right; right; right; rfl
  | cons key rest ih =>
    cases hg : govDatabasesGet key with
    | none => simpa only [searchDatabasesFrom, hg] using ih
    | some info =>
      cases hl : lookup info.resource_id with
      | none => simpa only [searchDatabasesFrom, hg, hl] using ih
      | some record =>
        have h3 := govDatabasesGet_alert_cases key info hg
        simp only [searchDatabasesFrom, hg, hl]
        rcases h3 with h' | h' | h' <;> simp [foundGovData, h']

theorem search_all_alert_cases (lookup : String → Option (String → Option String)) :
    (search_all_databases lookup).1.alert_type = none ∨
    (search_all_databases lookup).1.alert_type = some ALERT_NO_LICENSE ∨
    (search_all_databases lookup).1.alert_type = some ALERT_OFF_ROAD ∨
    (search_all_databases lookup).1.alert_type = some ALERT_FAKE_PLATE :=
  searchFrom_alert_cases lookup GOV_SEARCH_ORDER

/-- When every present registry in `l` yields no match, the resolver walks
all of `l` and returns the FAKE_PLATE not-found record. -/
theorem searchFrom_of_none (lookup : String → Option (String → Option String))
    (l : List String)
    (h : ∀ k ∈ l, ∀ i, govDatabasesGet k = some i → lookup i.resource_id = none) :
    searchDatabasesFrom lookup l =
      (notFoundGovData, l.filter (fun k => (govDatabasesGet k).isSome)) := by
  induction l with
  | nil => rfl
  | cons key rest ih =>
    have hrest : ∀ k ∈ rest, ∀ i, govDatabasesGet k = some i → lookup i.resource_id = none :=
      fun k hk => h k (List.mem_cons_of_mem _ hk)
    cases hg : govDatabasesGet key with
    | none =>
      simp only [searchDatabasesFrom, hg, ih hrest, List.filter_cons]
      simp [hg]
    | some info =>
      have hnone := h key (List.mem_cons_self _ _) info hg
      simp only [searchDatabasesFrom, hg, hnone, ih hrest, List.filter_cons]
      simp [hg]

/-- When every present registry strictly before `key` yields no match and
`key` is a present registry whose lookup yields `record`, the resolver
returns the record built from `key`'s registry, and the registries after
`key` are never consulted. -/
theorem searchFrom_of_first (lookup : String → Option (String → Option String))
    (pre : List String) (key : String) (post : List String)
    (info : DbInfo) (record : String → Option String)
    (hpre : ∀ k ∈ pre, ∀ i, govDatabasesGet k = some i → lookup i.resource_id = none)
    (hkey : govDatabasesGet key = some info)
    (hrec : lookup info.resource_id = some record) :
    searchDatabasesFrom lookup (pre ++ key :: post) =
      (foundGovData info record,
        (pre ++ [key]).filter (fun k => (govDatabasesGet k).isSome)) := by
  induction pre with
  | nil =>
    simp only [List.nil_append, searchDatabasesFrom, hkey, hrec, List.filter_cons]
    simp [hkey]
  | cons k ks ih =>
    have hks : ∀ x ∈ ks, ∀ i, govDatabasesGet x = some i → lookup i.resource_id = none :=
      fun x hx => hpre x (List.mem_cons_of_mem _ hx)
    cases hg : govDatabasesGet k with
    | none =>
      simp only [List.cons_append, searchDatabasesFrom, hg, List.filter_cons]
      simp [hg, ih hks, List.filter_append]
    | some i =>
      have hnone := hpre k (List.mem_cons_self _ _) i hg
      simp only [List.cons_append, searchDatabasesFrom, hg, hnone, List.filter_cons]
      simp [hg, ih hks, List.filter_append]

/-! ### Claim C3: the registry resolver's priority short-circuit -/

/-- C3: the resolver queries the registries in the fixed configured order
`GOV_SEARCH_ORDER` and returns the record built from the first registry
that yields a positive match; the instrumented query list shows that no
registry after the matching one is consulted. If every registry fails to
match, it returns a record with `found = false` and alert kind FAKE_PLATE
after consulting the whole ordered list. -/
theorem C3_resolver (lookup : String → Option (String → Option String)) :
    (∀ pre key post info record,
        GOV_SEARCH_ORDER = pre ++ key :: post →
        (∀ k ∈ pre, ∀ i, govDatabasesGet k = some i → lookup i.resource_id = none) →
        govDatabasesGet key = some info →
        lookup info.resource_id = some record →
        search_all_databases lookup =
          (foundGovData info record,
            (pre ++ [key]).filter (fun k => (govDatabasesGet k).isSome))) ∧
    ((∀ k ∈ GOV_SEARCH_ORDER, ∀ i, govDatabasesGet k = some i →
        lookup i.resource_id = none) →
      search_all_databases lookup =
        (notFoundGovData,
          GOV_SEARCH_ORDER.filter (fun k => (govDatabasesGet k).isSome)) ∧
      notFoundGovData.found = false ∧
      notFoundGovData.alert_type = some ALERT_FAKE_PLATE) := by
  constructor
  · intro pre key post info record horder hpre hkey hrec
    unfold search_all_databases
    rw [horder]
    exact searchFrom_of_first lookup pre key post info record hpre hkey hrec
  · intro hall
    exact ⟨searchFrom_of_none lookup GOV_SEARCH_ORDER hall, rfl, rfl⟩

/-! ### Admission-filter lemmas -/

theorem validate_lpr_of_len (lpr : String) (hd : pyIsDigit lpr = true)
    (hl : lpr.length = 7 ∨ lpr.length = 8) : validate_lpr lpr = true := by
  have hne : lpr.data.isEmpty = false := by
    cases he : lpr.data.isEmpty
    · rfl
    · exfalso
      unfold pyIsDigit at hd
      rw [he] at hd
      simp at hd
  rcases hl with h | h <;> simp [validate_lpr, hne, hd, h, LPR_VALID_LENGTHS]

theorem validate_lpr_of_bad_len (lpr : String) (hd : pyIsDigit lpr = true)
    (hl : ¬ (lpr.length = 7 ∨ lpr.length = 8)) : validate_lpr lpr = false := by
  have hne : lpr.data.isEmpty = false := by
    cases he : lpr.data.isEmpty
    · rfl
    · exfalso
      unfold pyIsDigit at hd
      rw [he] at hd
      simp at hd
  simp [validate_lpr, hne, hd, LPR_VALID_LENGTHS, hl]

/-! ### Claim C2: disposal of malformed input -/

/-- C2 (amended): a capture whose filename does not parse produces no
event, surfaces no error, and invokes no collaborator, but the source file
is NOT deleted (the orchestrator merely returns); a capture whose plate
contains a non-digit character, and one whose all-digit plate has a length
other than 7 or 8, is silently discarded with the source file deleted, no
event, and no error. -/
theorem C2_amended (filename : String) (env : Env) :
    ((parse_filename filename).valid = false →
        process_new_file filename env = ({} : ProcessResult)) ∧
    ((parse_filename filename).valid = true →
        pyIsDigit (parse_filename filename).lpr = false →
        process_new_file filename env = ({ fileDeleted := true } : ProcessResult)) ∧
    ((parse_filename filename).valid = true →
        pyIsDigit (parse_filename filename).lpr = true →
        ¬ ((parse_filename filename).lpr.length = 7 ∨
            (parse_filename filename).lpr.length = 8) →
        process_new_file filename env = ({ fileDeleted := true } : ProcessResult)) := by
  refine ⟨?_, ?_, ?_⟩
  · intro h1
    simp only [process_new_file]
    rw [if_pos h1]
  · intro h1 h2
    have hn1 : ¬ ((parse_filename filename).valid = false) := by
      rw [h1]; exact fun hc => Bool.noConfusion hc
    simp only [process_new_file]
    rw [if_neg hn1, if_pos h2]
  · intro h1 h2 h3
    have hn1 : ¬ ((parse_filename filename).valid = false) := by
      rw [h1]; exact fun hc => Bool.noConfusion hc
    have hn2 : ¬ (pyIsDigit (parse_filename filename).lpr = false) := by
      rw [h2]; exact fun hc => Bool.noConfusion hc
    have hval : validate_lpr (parse_filename filename).lpr = false :=
      validate_lpr_of_bad_len _ h2 h3
    simp only [process_new_file]
    rw [if_neg hn1, if_neg hn2, if_pos hval]

def noSkip : PreScreenResult := { skip := false, reason := "none" }

def lookupNone : String → Option (String → Option String) := fun _ => none

/-- An environment where no registry matches and the yellow-plate check is
positive. -/
def envFake : Env :=
  { preScreen := noSkip, govError := none, lookup := lookupNone,
    yellowPlate := true, analyze := {} }

def fnameMalformed : String := "badname.jpg"

/-- C2 counterexample: for the unparsable filename `badname.jpg` the claim
promises the source file is deleted, but the run deletes nothing (and, as
claimed, produces no event): the result is the all-default `ProcessResult`
with `fileDeleted = false`. -/
theorem C2_counterexample :
    (process_new_file fnameMalformed envFake).event = none ∧
    (process_new_file fnameMalformed envFake).fileDeleted = false ∧
    process_new_file fnameMalformed envFake = ({} : ProcessResult) :=
  ⟨rfl, rfl, rfl⟩

/-! ### Claim C6: the 7-digit suffix-exclusion filter -/

/-- C6: for every run whose parsed plate is all digits, of length 7, and
whose last two digits form a number in [90, 99], the pipeline deletes the
source file and produces no event regardless of registry content (the
environment is arbitrary); neither the registry resolver nor any vision
operation (pre-screen, yellow-plate, full verification) is invoked. -/
theorem C6_suffix_exclusion (filename : String) (env : Env)
    (h1 : (parse_filename filename).valid = true)
    (h2 : pyIsDigit (parse_filename filename).lpr = true)
    (h3 : (parse_filename filename).lpr.length = 7)
    (h4 : 90 ≤ digitsToNat (lastTwo (parse_filename filename).lpr))
    (h5 : digitsToNat (lastTwo (parse_filename filename).lpr) ≤ 99) :
    process_new_file filename env = ({ fileDeleted := true } : ProcessResult) ∧
    (process_new_file filename env).event = none ∧
    (process_new_file filename env).fileDeleted = true ∧
    (process_new_file filename env).calledGov = false ∧
    (process_new_file filename env).calledPreScreen = false ∧
    (process_new_file filename env).calledYellow = false ∧
    (process_new_file filename env).calledAnalyze = false := by
  have hval : validate_lpr (parse_filename filename).lpr = true :=
    validate_lpr_of_len _ h2 (Or.inl h3)
  have hn1 : ¬ ((parse_filename filename).valid = false) := by
    rw [h1]; exact fun hc => Bool.noConfusion hc
  have hn2 : ¬ (pyIsDigit (parse_filename filename).lpr = false) := by
    rw [h2]; exact fun hc => Bool.noConfusion hc
  have hn3 : ¬ (validate_lpr (parse_filename filename).lpr = false) := by
    rw [hval]; exact fun hc => Bool.noConfusion hc
  have hmain : process_new_file filename env = ({ fileDeleted := true } : ProcessResult) := by
    simp only [process_new_file]
    rw [if_neg hn1, if_neg hn2, if_neg hn3, if_pos ⟨h3, h4, h5⟩]
  exact ⟨hmain, by rw [hmain], by rw [hmain], by rw [hmain], by rw [hmain],
    by rw [hmain], by rw [hmain]⟩

def fnameSuffix : String := "9908_01_20251211121434974_7072996_1_P1.jpg"

/-- C6 witness: the end-to-end scenario-A capture, plate `7072996` (suffix
96), run in a concrete environment: discarded with nothing invoked. -/
theorem C6_witness :
    process_new_file fnameSuffix envFake = ({ fileDeleted := true } : ProcessResult) ∧
    (process_new_file fnameSuffix envFake).event = none ∧
    (process_new_file fnameSuffix envFake).fileDeleted = true ∧
    (process_new_file fnameSuffix envFake).calledGov = false ∧
    (process_new_file fnameSuffix envFake).calledPreScreen = false ∧
    (process_new_file fnameSuffix envFake).calledYellow = false ∧
    (process_new_file fnameSuffix envFake).calledAnalyze = false :=
  C6_suffix_exclusion fnameSuffix envFake rfl rfl rfl (by decide) (by decide)

/-! ### Orchestrator case analysis -/

theorem truthy_NL : optStrTruthy (some ALERT_NO_LICENSE) = true := by decide

theorem truthy_OR : optStrTruthy (some ALERT_OFF_ROAD) = true := by decide

theorem truthy_FP : optStrTruthy (some ALERT_FAKE_PLATE) = true := by decide

theorem NL_ne_FP : ¬ (ALERT_NO_LICENSE = ALERT_FAKE_PLATE) := by decide

theorem OR_ne_FP : ¬ (ALERT_OFF_ROAD = ALERT_FAKE_PLATE) := by decide

theorem OR_ne_NL : ¬ (ALERT_OFF_ROAD = ALERT_NO_LICENSE) := by decide

/-- A run either terminates at one of the three discard filters (or the
unparsable-filename return) or proceeds to the registry/vision stage. -/
theorem process_cases (filename : String) (env : Env) :
    process_new_file filename env = ({} : ProcessResult) ∨
    process_new_file filename env = ({ fileDeleted := true } : ProcessResult) ∨
    process_new_file filename env =
      ({ fileDeleted := true, calledPreScreen := true } : ProcessResult) ∨
    process_new_file filename env = govStage (parse_filename filename) filename env := by
  simp only [process_new_file]
  by_cases h1 : (parse_filename filename).valid = false
  · left; rw [if_pos h1]
  · rw [if_neg h1]
    by_cases h2 : pyIsDigit (parse_filename filename).lpr = false
    · right; left; rw [if_pos h2]
    · rw [if_neg h2]
      by_cases h3 : validate_lpr (parse_filename filename).lpr = false
      · right; left; rw [if_pos h3]
      · rw [if_neg h3]
        by_cases h4 : ((parse_filename filename).lpr.length = 7 ∧
            90 ≤ digitsToNat (lastTwo (parse_filename filename).lpr) ∧
            digitsToNat (lastTwo (parse_filename filename).lpr) ≤ 99)
        · right; left; rw [if_pos h4]
        · rw [if_neg h4]
          by_cases h5 : env.preScreen.skip = true
          · right; right; left; rw [if_pos h5]
          · right; right; right; rw [if_neg h5]

/-! ### Claim C4: persisted events are never PROCESSING -/

/-- C4: every event the orchestrator passes to the store's save operation
has a terminal status: on every control path that reaches persistence
(NO_LICENSE, OFF_ROAD, FAKE_PLATE with a positive yellow check, the
not-found fallback, and the full-verification branch), the status has been
reassigned away from PROCESSING before `save_event` is called. -/
theorem C4_no_processing (filename : String) (env : Env) (e : VehicleEvent)
    (h : (process_new_file filename env).event = some e) :
    e.status ≠ EventStatus.PROCESSING := by
  have hrun : process_new_file filename env = govStage (parse_filename filename) filename env := by
    rcases process_cases filename env with he | he | he | he
    · rw [he] at h; exact absurd h (by simp)
    · rw [he] at h; exact absurd h (by simp)
    · rw [he] at h; exact absurd h (by simp)
    · exact he
  rw [hrun] at h
  cases hge : env.govError with
  | some msg =>
    simp [govStage, hge, optStrTruthy, finishRun] at h
    subst h
    simp
  | none =>
    rcases search_all_alert_cases env.lookup with ha | ha | ha | ha
    · cases hf : (search_all_databases env.lookup).1.found with
      | false =>
        simp [govStage, hge, ha, hf, optStrTruthy, finishRun] at h
        subst h
        simp
      | true =>
        simp [govStage, hge, ha, hf, optStrTruthy, finishRun] at h
        subst h
        simp only [VehicleEvent.status]
        split <;> simp
    · simp [govStage, hge, ha, truthy_NL, NL_ne_FP, finishRun] at h
      subst h
      simp
    · simp [govStage, hge, ha, truthy_OR, OR_ne_FP, OR_ne_NL, finishRun] at h
      subst h
      simp
    · cases hy : env.yellowPlate with
      | false =>
        simp [govStage, hge, ha, truthy_FP, hy, finishRun] at h
      | true =>
        simp [govStage, hge, ha, truthy_FP, hy, finishRun] at h
        subst h
        simp

def fnameFake : String := "9908_01_20251211121434974_99999999_1_P1.jpg"

/-- C4 witness: a concrete run (8-digit plate found in no registry, yellow
check positive) persists exactly one event and its status is not
PROCESSING. -/
theorem C4_witness :
    Option.map (fun e => decide (e.status ≠ EventStatus.PROCESSING))
        (process_new_file fnameFake envFake).event = some true := by
  cases hev : (process_new_file fnameFake envFake).event with
  | none => exact absurd hev (by decide)
  | some e =>
    have hne := C4_no_processing fnameFake envFake e hev
    simp [hne]

/-! ### Claim C1: the yellow-plate gate on the FAKE_PLATE path -/

/-- C1 (amended): for every run that reaches the registry resolver with no
registry matching (so the resolver returns `found = false`, alert kind
FAKE_PLATE), the yellow-plate check fully gates the outcome: a negative
check yields no event and the source file is deleted; a positive check
yields exactly one persisted event with status FAKE_PLATE whose vision
verdict is the synthetic fake-plate verdict with `target_found = false` and
`confidence = 0` (not a high-confidence verdict), and the source file is
moved, not deleted. -/
theorem C1_amended (filename : String) (env : Env)
    (hg : (process_new_file filename env).calledGov = true)
    (herr : env.govError = none)
    (hnone : ∀ k ∈ GOV_SEARCH_ORDER, ∀ i, govDatabasesGet k = some i →
        env.lookup i.resource_id = none) :
    (env.yellowPlate = false →
        (process_new_file filename env).event = none ∧
        (process_new_file filename env).fileDeleted = true) ∧
    (env.yellowPlate = true →
        Option.map (fun e => e.status) (process_new_file filename env).event =
          some EventStatus.FAKE_PLATE ∧
        Option.map (fun e => e.ai_analysis) (process_new_file filename env).event =
          some syntheticFakePlateVerdict ∧
        (process_new_file filename env).fileDeleted = false ∧
        (process_new_file filename env).fileMoved = true) := by
  have hrun : process_new_file filename env = govStage (parse_filename filename) filename env := by
    rcases process_cases filename env with he | he | he | he
    · rw [he] at hg; exact absurd hg (by decide)
    · rw [he] at hg; exact absurd hg (by decide)
    · rw [he] at hg; exact absurd hg (by decide)
    · exact he
  have hsearch : search_all_databases env.lookup =
      (notFoundGovData, GOV_SEARCH_ORDER.filter (fun k => (govDatabasesGet k).isSome)) :=
    searchFrom_of_none env.lookup GOV_SEARCH_ORDER hnone
  rw [hrun]
  constructor
  · intro hy
    constructor <;>
      simp [govStage, herr, hsearch, notFoundGovData, truthy_FP, hy, finishRun]
  · intro hy
    refine ⟨?_, ?_, ?_, ?_⟩ <;>
      simp [govStage, herr, hsearch, notFoundGovData, truthy_FP, hy, finishRun]

/-- C1 counterexample: at the concrete run of plate `99999999` (found in no
registry, yellow check positive) the persisted FAKE_PLATE event's vision
verdict has `target_found = false` and `confidence = 0` — not the
high-confidence synthetic verdict the claim promises. -/
theorem C1_counterexample :
    Option.map (fun e => e.status) (process_new_file fnameFake envFake).event =
      some EventStatus.FAKE_PLATE ∧
    Option.map (fun e => e.ai_analysis.target_found)
        (process_new_file fnameFake envFake).event = some false ∧
    Option.map (fun e => e.ai_analysis.confidence)
        (process_new_file fnameFake envFake).event = some 0 ∧
    ¬ (Option.map (fun e => e.ai_analysis.confidence)
        (process_new_file fnameFake envFake).event = some 100) ∧
    ¬ (Option.map (fun e => decide (75 ≤ e.ai_analysis.confidence))
        (process_new_file fnameFake envFake).event = some true) := by
  refine ⟨rfl, rfl, rfl, ?_, ?_⟩ <;> decide

/-- C1 witness: the amended claim applied at the concrete
no-registry-match, positive-yellow-check run. -/
theorem C1_witness :
    Option.map (fun e => e.status) (process_new_file fnameFake envFake).event =
      some EventStatus.FAKE_PLATE ∧
    Option.map (fun e => e.ai_analysis) (process_new_file fnameFake envFake).event =
      some syntheticFakePlateVerdict ∧
    (process_new_file fnameFake envFake).fileMoved = true := by
  have h := (C1_amended fnameFake envFake rfl rfl
    (fun k hk i hi => rfl)).2 rfl
  exact ⟨h.1, h.2.1, h.2.2.2⟩

/-! ### The full-verification branch -/

/-- Every run that invokes full vision verification persists exactly one
event whose verdict is the collaborator's and whose status is VERIFIED or
ALERT by the threshold comparison. -/
theorem calledAnalyze_run (filename : String) (env : Env)
    (h : (process_new_file filename env).calledAnalyze = true) :
    Option.map (fun e => e.status) (process_new_file filename env).event =
      some (if env.analyze.target_found = true ∧
              AI_CONFIDENCE_THRESHOLD ≤ env.analyze.confidence
            then EventStatus.VERIFIED else EventStatus.ALERT) ∧
    Option.map (fun e => e.ai_analysis) (process_new_file filename env).event =
      some env.analyze := by
  have hrun : process_new_file filename env = govStage (parse_filename filename) filename env := by
    rcases process_cases filename env with he | he | he | he
    · rw [he] at h; exact absurd h (by decide)
    · rw [he] at h; exact absurd h (by decide)
    · rw [he] at h; exact absurd h (by decide)
    · exact he
  rw [hrun] at h ⊢
  cases hge : env.govError with
  | some msg =>
    exfalso
    simp [govStage, hge, optStrTruthy, finishRun] at h
  | none =>
    rcases search_all_alert_cases env.lookup with ha | ha | ha | ha
    · cases hf : (search_all_databases env.lookup).1.found with
      | false =>
        exfalso
        simp [govStage, hge, ha, hf, optStrTruthy, finishRun] at h
      | true =>
        simp [govStage, hge, ha, hf, optStrTruthy, finishRun]
    · exfalso
      simp [govStage, hge, ha, truthy_NL, NL_ne_FP, finishRun] at h
    · exfalso
      simp [govStage, hge, ha, truthy_OR, OR_ne_FP, OR_ne_NL, finishRun] at h
    · exfalso
      cases hy : env.yellowPlate with
      | false => simp [govStage, hge, ha, truthy_FP, hy, finishRun] at h
      | true => simp [govStage, hge, ha, truthy_FP, hy, finishRun] at h

/-! ### Claim C5: the VERIFIED/ALERT threshold -/

/-- C5: for every run that reaches full vision verification, the terminal
status is VERIFIED exactly when the verdict has `target_found = true` and
confidence ≥ 75 (the configured threshold), and ALERT otherwise; in
particular confidence exactly 75 with the target found yields VERIFIED and
confidence 74 yields ALERT. -/
theorem C5_threshold (filename : String) (env : Env)
    (h : (process_new_file filename env).calledAnalyze = true) :
    Option.map (fun e => e.status) (process_new_file filename env).event =
      some (if env.analyze.target_found = true ∧ (75 : Int) ≤ env.analyze.confidence
            then EventStatus.VERIFIED else EventStatus.ALERT) ∧
    (env.analyze.target_found = true → env.analyze.confidence = 75 →
      Option.map (fun e => e.status) (process_new_file filename env).event =
        some EventStatus.VERIFIED) ∧
    (env.analyze.confidence = 74 →
      Option.map (fun e => e.status) (process_new_file filename env).event =
        some EventStatus.ALERT) ∧
    (¬ (env.analyze.target_found = true ∧ (75 : Int) ≤ env.analyze.confidence) →
      Option.map (fun e => e.status) (process_new_file filename env).event =
        some EventStatus.ALERT) := by
  have hm := (calledAnalyze_run filename env h).1
  have hthr : AI_CONFIDENCE_THRESHOLD = (75 : Int) := rfl
  rw [hthr] at hm
  refine ⟨hm, ?_, ?_, ?_⟩
  · intro ht hc
    rw [hm, if_pos ⟨ht, by rw [hc]⟩]
  · intro hc
    rw [hm, if_neg ?_]
    rintro ⟨-, hge⟩
    rw [hc] at hge
    omega
  · intro hn
    rw [hm, if_neg hn]

def mainResource : String := "053cea08-09bc-40ec-8f7a-156f0677aff3"
def toyotaName : String := "טויוטה"

def recToyota : String → Option String :=
  fun k => if k = fldTozeretNm then some toyotaName else none

def lookupMain : String → Option (String → Option String) :=
  fun rid => if rid = mainResource then some recToyota else none

/-- An environment where the primary registry matches and the collaborator
answers a boundary-confidence positive verdict. -/
def envVerify : Env :=
  { preScreen := noSkip, govError := none, lookup := lookupMain,
    yellowPlate := false, analyze := { target_found := true, confidence := 75 } }

def fnameVerify : String := "9908_01_20251211121434974_1234567_1_P1.jpg"

/-- C5 witness: plate `1234567` found in the primary registry with a
target-found verdict of confidence exactly 75 is persisted as VERIFIED. -/
theorem C5_witness :
    Option.map (fun e => e.status) (process_new_file fnameVerify envVerify).event =
      some EventStatus.VERIFIED :=
  (C5_threshold fnameVerify envVerify rfl).2.1 rfl rfl

/-! ### Claim C9: degraded verdict on unparsable responses -/

/-- C9: for every full-verification collaborator response from which no
structured JSON payload can be extracted (no brace-delimited substring, or
the payload does not decode), the adapter does not raise: it returns the
degraded verdict with `target_found = false`, `confidence = 0`, the first
200 characters of the reply as the scene description and a reasoning field
noting the parse failure; and a pipeline run using that verdict still
persists an event (with status ALERT), so the run continues. -/
theorem C9_degraded (decode : String → Option AIPayload) (content : String)
    (h : (extractJson content).bind decode = none) :
    analyzeResponse decode (CollabResponse.ok content) = parseFailVerdict content ∧
    (analyzeResponse decode (CollabResponse.ok content)).target_found = false ∧
    (analyzeResponse decode (CollabResponse.ok content)).confidence = 0 ∧
    (analyzeResponse decode (CollabResponse.ok content)).scene_description =
      strSlice content 0 200 ∧
    (analyzeResponse decode (CollabResponse.ok content)).reasoning = some MSG_PARSE_FAIL ∧
    (∀ filename env, env.analyze = analyzeResponse decode (CollabResponse.ok content) →
      (process_new_file filename env).calledAnalyze = true →
      Option.map (fun e => e.status) (process_new_file filename env).event =
        some EventStatus.ALERT) := by
  have heq : analyzeResponse decode (CollabResponse.ok content) = parseFailVerdict content := by
    cases hx : extractJson content with
    | none => simp [analyzeResponse, hx]
    | some js =>
      cases hd : decode js with
      | none => simp [analyzeResponse, hx, hd]
      | some r =>
        exfalso
        rw [hx] at h
        simp [hd] at h
  refine ⟨heq, by rw [heq]; rfl, by rw [heq]; rfl, by rw [heq]; rfl,
    by rw [heq]; rfl, ?_⟩
  intro filename env ha hcall
  have hm := (calledAnalyze_run filename env hcall).1
  rw [ha, heq] at hm
  rw [hm, if_neg ?_]
  rintro ⟨ht, -⟩
  exact Bool.noConfusion ht

def decodeNone : String → Option AIPayload := fun _ => none

def helloContent : String := "hello"

/-- C9 witness: a reply with no brace-delimited payload degrades to the
parse-failure verdict. -/
theorem C9_witness :
    analyzeResponse decodeNone (CollabResponse.ok helloContent) =
      ({ scene_description := helloContent, target_found := false, confidence := 0,
         reasoning := some MSG_PARSE_FAIL } : AIAnalysis) := by
  have h := (C9_degraded decodeNone helloContent rfl).1
  rw [h]
  decide

/-! ### Claim C8: the yellow-plate boolean check -/

/-- C8: for every collaborator response, `detect_yellow_plate` returns true
exactly when the response carries a reply from which a structured payload
is extracted and decoded with a positive found flag and confidence at least
50; a transport error, a reply with no extractable payload, and an
undecodable payload each yield false. -/
theorem C8_yellow_gate (decode : String → Option YellowPayload) :
    (∀ resp, detect_yellow_plate decode resp = true ↔
      ∃ content js p, resp = CollabResponse.ok content ∧
        extractJson content = some js ∧ decode js = some p ∧
        p.yellow_plate_found = true ∧ (50 : Int) ≤ p.confidence) ∧
    (∀ msg, detect_yellow_plate decode (CollabResponse.err msg) = false) ∧
    (∀ content, extractJson content = none →
      detect_yellow_plate decode (CollabResponse.ok content) = false) ∧
    (∀ content js, extractJson content = some js → decode js = none →
      detect_yellow_plate decode (CollabResponse.ok content) = false) := by
  refine ⟨?_, fun msg => rfl, ?_, ?_⟩
  · intro resp
    cases resp with
    | err m => simp [detect_yellow_plate]
    | ok content =>
      cases hx : extractJson content with
      | none => simp [detect_yellow_plate, hx]
      | some js =>
        cases hd : decode js with
        | none => simp [detect_yellow_plate, hx, hd]
        | some p =>
          simp [detect_yellow_plate, hx, hd]
  · intro content hx
    simp [detect_yellow_plate, hx]
  · intro content js hx hd
    simp [detect_yellow_plate, hx, hd]

/-! ### Claim C10: the store's alert queries -/

/-- The status strings the SQL comparisons use are injective on the enum. -/
theorem statusValue_alert_iff (st : EventStatus) :
    ((statusValue st == statusValue EventStatus.ALERT) = true ↔
      st = EventStatus.ALERT) := by
  cases st <;> decide

theorem contains_statusValue (st : EventStatus) :
    (alert_statuses.contains (statusValue st) = true ↔
      (st = EventStatus.ALERT ∨ st = EventStatus.FAKE_PLATE ∨
        st = EventStatus.NO_LICENSE ∨ st = EventStatus.OFF_ROAD)) := by
  cases st <;> decide

/-- C10: the store's clear-non-alerts deletes exactly the events whose
status is outside {ALERT, FAKE_PLATE, NO_LICENSE, OFF_ROAD}, while the
alerts query returns only events of status exactly ALERT; hence every
persisted FAKE_PLATE, NO_LICENSE or OFF_ROAD event survives every
clear-non-alerts call yet is never returned by the alerts query. -/
theorem C10_store (rows : List VehicleEvent) :
    (∀ e, e ∈ (delete_non_alert_events rows).1 ↔
        e ∈ rows ∧ (e.status = EventStatus.ALERT ∨ e.status = EventStatus.FAKE_PLATE ∨
          e.status = EventStatus.NO_LICENSE ∨ e.status = EventStatus.OFF_ROAD)) ∧
    (∀ limit e, e ∈ get_alerts rows limit → e.status = EventStatus.ALERT) ∧
    (∀ e, e ∈ rows →
      (e.status = EventStatus.FAKE_PLATE ∨ e.status = EventStatus.NO_LICENSE ∨
        e.status = EventStatus.OFF_ROAD) →
      e ∈ (delete_non_alert_events rows).1 ∧ ∀ limit, e ∉ get_alerts rows limit) := by
  have hmem : ∀ e, e ∈ (delete_non_alert_events rows).1 ↔
      e ∈ rows ∧ (e.status = EventStatus.ALERT ∨ e.status = EventStatus.FAKE_PLATE ∨
        e.status = EventStatus.NO_LICENSE ∨ e.status = EventStatus.OFF_ROAD) := by
    intro e
    unfold delete_non_alert_events
    rw [List.mem_filter]
    exact and_congr_right fun _ => contains_statusValue e.status
  have halert : ∀ (limit : Nat) e, e ∈ get_alerts rows limit →
      e.status = EventStatus.ALERT := by
    intro limit e he
    unfold get_alerts get_events at he
    have h1 : e ∈ (rows.filter
        (fun x => statusValue x.status == statusValue EventStatus.ALERT)).drop 0 :=
      List.mem_of_mem_take he
    have h2 : e ∈ rows.filter
        (fun x => statusValue x.status == statusValue EventStatus.ALERT) :=
      List.mem_of_mem_drop h1
    exact (statusValue_alert_iff e.status).mp (List.mem_filter.mp h2).2
  refine ⟨hmem, halert, ?_⟩
  intro e hin hst
  constructor
  · exact (hmem e).mpr ⟨hin, Or.inr hst⟩
  · intro limit hcontra
    have := halert limit e hcontra
    rcases hst with h | h | h <;> rw [h] at this <;> exact EventStatus.noConfusion this

end MoonGuard
